/-
Verification of the music playback subsystem of realTNEU/python-music-bot
(src/music_bot.py) against its natural-language specification.

The Python source is shallowly embedded: each mutable class becomes a Lean
structure, each method becomes a pure function written in state-passing
style, and the asynchronous callback machinery around skip / end-of-track
is modelled as an explicit interleaving of atomic steps.  Timestamps
(datetime.utcnow) are modelled as Nat values supplied by the caller, and
the MD5 digest used for cache keys is an arbitrary fixed function passed
as a parameter, since no property below depends on its internals.
-/
import Mathlib

set_option linter.all false

/-- Pythons str.lower, character by character (ASCII, as used by every
lowercase call site in music_bot.py). -/
def pyLower (s : String) : String :=
  ⟨s.data.map Char.toLower⟩

/-- MusicQueue (music_bot.py lines 208-230): the per-guild queue.  The
fields volume, voice_client and text_channel are I/O handles with no
bearing on the queue logic and are omitted. -/
structure MusicQueue (α : Type) where
  songs : List α
  current_song : Option α
  playing : Bool
deriving DecidableEq, Repr

namespace MusicQueue

/-- Lines 217-219: append the song to the pending list. -/
def add_song (q : MusicQueue α) (s : α) : MusicQueue α :=
  { q with songs := q.songs ++ [s] }

/-- Lines 221-225: if the pending list is non-empty, pop its head into
current_song and return it; otherwise return None.  The mutation is made
explicit by returning the updated queue together with the result. -/
def next_song (q : MusicQueue α) : MusicQueue α × Option α :=
  match q.songs with
  | [] => (q, none)
  | h :: t => ({ q with songs := t, current_song := some h }, some h)

/-- Lines 227-230: empty the pending list, drop the current song, mark
not playing. -/
def clear (q : MusicQueue α) : MusicQueue α :=
  { songs := [], current_song := none, playing := false }

end MusicQueue

/-- Effect of the /stop slash command on the queue state (lines
1074-1079): queue.clear() followed by voice stop and disconnect. -/
def stop_cmd_effect (q : MusicQueue α) : MusicQueue α :=
  MusicQueue.clear q

/-- Effect of the stop button (MusicControls.stop_button, lines 614-620)
on the queue state: voice stop, then queue.songs.clear() and
queue.playing = False.  Note that current_song is not touched. -/
def stop_button_effect (q : MusicQueue α) : MusicQueue α :=
  { q with songs := [], playing := false }

/-- MusicDatabase.generate_song_id (lines 45-48): md5 of the lowercased
string "title_artist_url".  The digest function is a parameter. -/
def generate_song_id (md5 : String → String) (title artist url : String) : String :=
  md5 (pyLower (title ++ "_" ++ artist ++ "_" ++ url))

/-- The song dict assembled by search_youtube (lines 275-283) and consumed
by MusicDatabase.save_song via .get with defaults. -/
structure SongData where
  title : String
  artist : String
  duration : Nat
  url : String
  thumbnail : String
  spotify_id : String
  search_query : String
  from_cache : Bool
deriving DecidableEq, Repr

/-- A document of the songs collection as written by save_song (lines
59-97); timestamps are the Nat clock value at write time. -/
structure SongDoc where
  title : String
  artist : String
  duration : Nat
  url : String
  thumbnail : String
  spotify_id : String
  search_queries : List String
  play_count : Nat
  first_searched : Nat
  last_played : Nat
  created_at : Nat
  updated_at : Nat
deriving DecidableEq, Repr

/-- The songs collection, keyed by the _id string. -/
def SongColl : Type := String → Option SongDoc

/-- MongoDB $addToSet with $each: append each element not already
present, keeping existing order. -/
def addToSetEach (cur : List String) (xs : List String) : List String :=
  xs.foldl (fun acc q => if acc.contains q then acc else acc ++ [q]) cur

/-- The successful body of MusicDatabase.save_song (lines 50-100): compute
the content id, then update_one with upsert=True applying $set on the
metadata and last_played/updated_at, $inc play_count by 1 (which creates
the field at 1 on insert), $addToSet of the lowercased originating query,
and $setOnInsert for first_searched/created_at.  Returns the id and the
updated collection. -/
def save_song_apply (md5 : String → String) (sd : SongData) (now : Nat)
    (coll : SongColl) : String × SongColl :=
  let song_id := generate_song_id md5 sd.title sd.artist sd.url
  let queries := [pyLower sd.search_query]
  match coll song_id with
  | none =>
      (song_id, fun k => if k = song_id then some
        { title := sd.title, artist := sd.artist, duration := sd.duration,
          url := sd.url, thumbnail := sd.thumbnail, spotify_id := sd.spotify_id,
          search_queries := addToSetEach [] queries, play_count := 1,
          first_searched := now, last_played := now,
          created_at := now, updated_at := now }
        else coll k)
  | some old =>
      (song_id, fun k => if k = song_id then some
        { old with
            title := sd.title, artist := sd.artist,
            duration := sd.duration, url := sd.url,
            thumbnail := sd.thumbnail, spotify_id := sd.spotify_id,
            last_played := now, updated_at := now,
            play_count := old.play_count + 1,
            search_queries := addToSetEach old.search_queries queries }
        else coll k)

/-- Whether the motor update_one call raises (network or server error). -/
inductive DbOutcome
  | ok
  | failed
deriving DecidableEq, Repr

/-- The update_one call of save_song, either succeeding or raising. -/
def update_one_upsert (oc : DbOutcome) (md5 : String → String) (sd : SongData)
    (now : Nat) (coll : SongColl) : Except String (String × SongColl) :=
  match oc with
  | .ok => .ok (save_song_apply md5 sd now coll)
  | .failed => .error "write failed"

/-- MusicDatabase.save_song with its try/except (lines 50-104): on any
exception the error is logged and None is returned, leaving the
collection as it was. -/
def save_song (md5 : String → String) (oc : DbOutcome) (sd : SongData)
    (now : Nat) (coll : SongColl) : Option String × SongColl :=
  match update_one_upsert oc md5 sd now coll with
  | .ok (sid, c) => (some sid, c)
  | .error _ => (none, coll)

def docQueries (o : Option SongDoc) : Option (List String) :=
  o.map fun d => d.search_queries

def docPlayCount (o : Option SongDoc) : Option Nat :=
  o.map fun d => d.play_count

def docLastPlayed (o : Option SongDoc) : Option Nat :=
  o.map fun d => d.last_played

/-- A raw yt-dlp search entry as read by search_youtube (lines 273-283);
entries that are None in the Python list are simply absent here, matching
the `if entry` filter. -/
structure RawEntry where
  title : String
  url : String
  duration : Nat
  uploader : String
  thumbnail : String
deriving DecidableEq, Repr

/-- Lines 275-283: the song_data dict built for one entry. -/
def entry_to_song_data (query : String) (e : RawEntry) : SongData :=
  { title := e.title, url := e.url, duration := e.duration,
    artist := e.uploader, thumbnail := e.thumbnail, spotify_id := "",
    search_query := query, from_cache := false }

/-- The cache-miss path of search_youtube (lines 272-291): build the
formatted result list and, for each entry, create a detached task running
db.save_song (asyncio.create_task, line 287).  Returns the results
together with the list of pending save tasks. -/
def search_youtube_fresh (query : String) (entries : List RawEntry) :
    List SongData × List SongData :=
  let rs := entries.map (entry_to_song_data query)
  (rs, rs)

/-- Later execution of the detached save tasks against the database. -/
def run_save_tasks (md5 : String → String) (oc : DbOutcome) (now : Nat)
    (tasks : List SongData) (coll : SongColl) : SongColl :=
  tasks.foldl (fun c sd => (save_song md5 oc sd now c).2) coll

/-- What the play command observes: the search results, paired with the
collection state after the detached saves eventually run. -/
def search_and_flush (md5 : String → String) (oc : DbOutcome) (query : String)
    (entries : List RawEntry) (now : Nat) (coll : SongColl) :
    List SongData × SongColl :=
  ((search_youtube_fresh query entries).1,
   run_save_tasks md5 oc now (search_youtube_fresh query entries).2 coll)

/-- The module-level queues dict (line 233), extended with an allocation
id per MusicQueue object so that Python object identity is observable:
two registry entries denote the same object exactly when their ids agree.
next_obj is the id the next construction will use. -/
structure QueueReg where
  find : Nat → Option (Nat × MusicQueue Nat)
  next_obj : Nat

def emptyMusicQueue : MusicQueue Nat :=
  { songs := [], current_song := none, playing := false }

/-- get_queue (lines 235-238): if the guild has no entry, construct a
fresh MusicQueue and store it; return the stored object. -/
def get_queue (gid : Nat) (st : QueueReg) : (Nat × MusicQueue Nat) × QueueReg :=
  match st.find gid with
  | some e => (e, st)
  | none =>
      ((st.next_obj, emptyMusicQueue),
       { find := fun g =>
           if g = gid then some (st.next_obj, emptyMusicQueue) else st.find g,
         next_obj := st.next_obj + 1 })

/-- bot.music_players (line 188), reduced to the object ids of the stored
MusicPlayer instances. -/
structure PlayerReg where
  find : Nat → Option Nat
  next_obj : Nat

/-- The player handling of the play command: lines 976-982 reuse the
stored MusicPlayer if one exists (creating it otherwise), but lines
1036-1043 then unconditionally construct a brand-new MusicPlayer and
store it over the previous one.  Returns the id of the player actually
stored and used. -/
def play_setup_player (gid : Nat) (st : PlayerReg) : Nat × PlayerReg :=
  let st1 : PlayerReg :=
    match st.find gid with
    | some _ => st
    | none =>
        { find := fun g => if g = gid then some st.next_obj else st.find g,
          next_obj := st.next_obj + 1 }
  let pid := st1.next_obj
  (pid,
   { find := fun g => if g = gid then some pid else st1.find g,
     next_obj := st1.next_obj + 1 })

/-- The observable state of the guild voice client. -/
inductive VCState
  | vplaying
  | vpaused
  | vidle
deriving DecidableEq, Repr

def vc_is_playing (vc : VCState) : Bool :=
  match vc with
  | .vplaying => true
  | _ => false

def vc_is_paused (vc : VCState) : Bool :=
  match vc with
  | .vpaused => true
  | _ => false

/-- Reply sent back to the command issuer: a normal message or an
ephemeral refusal starting with the error marker. -/
inductive Reply
  | success (msg : String)
  | failure (msg : String)
deriving DecidableEq, Repr

def Reply.isSuccess : Reply → Bool
  | .success _ => true
  | .failure _ => false

/-- The /pause slash command (lines 1234-1251): missing player or a voice
client that is not currently playing produce an error reply and leave the
state alone; otherwise the client is paused. -/
def pause_cmd (hasPlayer hasVC : Bool) (vc : VCState) : VCState × Reply :=
  if hasPlayer = false then
    (vc, .failure "No music player found for this server!")
  else if hasVC = false || vc_is_playing vc = false then
    (vc, .failure "Nothing is currently playing!")
  else
    (.vpaused, .success "Music paused!")

/-- The /resume slash command (lines 1253-1270). -/
def resume_cmd (hasPlayer hasVC : Bool) (vc : VCState) : VCState × Reply :=
  if hasPlayer = false then
    (vc, .failure "No music player found for this server!")
  else if hasVC = false || vc_is_paused vc = false then
    (vc, .failure "Nothing is currently paused!")
  else
    (.vplaying, .success "Music resumed!")

/-- A voice state update event as received by on_voice_state_update:
whether the member is the bot itself, the channels before and after, and
the guild of the member. -/
structure VoiceEvt where
  memberIsBot : Bool
  beforeChannel : Option Nat
  afterChannel : Option Nat
  guildId : Nat
deriving DecidableEq, Repr

/-- The queues dict as a plain map for the voice event handler. -/
def Queues : Type := Nat → Option (MusicQueue Nat)

/-- on_voice_state_update (lines 928-943): events for the bot itself only
adjust deafening and return; for any other member, if before.channel is
set and after.channel is not, the guild queue (when present) is
cleared. -/
def on_voice_state_update (e : VoiceEvt) (qs : Queues) : Queues :=
  if e.memberIsBot then qs
  else if e.beforeChannel.isSome && e.afterChannel.isNone then
    match qs e.guildId with
    | some q => fun g => if g = e.guildId then some (MusicQueue.clear q) else qs g
    | none => qs
  else qs

/-- The session state seen by the MusicPlayer advance chain: the queue,
the number of failure notices sent (line 389, one per track whose audio
stream could not be obtained), the number of queue-finished notices sent
(line 831), and the track handed to voice_client.play, if any. -/
structure PlayerState (α : Type) where
  queue : MusicQueue α
  fail_msgs : Nat
  finished_msgs : Nat
  now_playing : Option α
deriving DecidableEq, Repr

/-- MusicPlayer.next_song (lines 823-833) with MusicPlayer.play_song
(lines 378-399) inlined at its recursive occurrence.  playable says
whether get_audio_url succeeds for a track.  If queue.songs is non-empty,
queue.next_song() pops the head; a playable pop starts playback, an
unplayable one sends the failure notice and re-enters next_song.  The
branch sending the queue-finished notice (line 830-831) is kept exactly
as in the source: it requires queue.next_song() to return None under a
non-empty songs list.  If songs is empty the session just drops the
playing flag (line 833). -/
def next_song_chain (playable : α → Bool) (st : PlayerState α) : PlayerState α :=
  if st.queue.songs.isEmpty then
    { st with queue := { st.queue with playing := false } }
  else
    match h : (MusicQueue.next_song st.queue).2 with
    | some x =>
        if playable x then
          { st with
              queue := (MusicQueue.next_song st.queue).1,
              now_playing := some x }
        else
          next_song_chain playable
            { st with
                queue := (MusicQueue.next_song st.queue).1,
                fail_msgs := st.fail_msgs + 1 }
    | none =>
        { st with
          queue := { (MusicQueue.next_song st.queue).1 with playing := false },
          finished_msgs := st.finished_msgs + 1 }
termination_by st.queue.songs.length
decreasing_by
  have hnil : st.queue.songs ≠ [] :=
    fun hn => by simp [MusicQueue.next_song, hn] at h
  cases hs : st.queue.songs with
  | nil => exact absurd hs hnil
  | cons a t => simp [MusicQueue.next_song, hs]

/-- MusicPlayer.play_song (lines 378-399) as the entry point of a chain:
a playable track is handed to the sink (with queue.current_song updated,
line 406), an unplayable one sends the failure notice and advances. -/
def play_song_chain (playable : α → Bool) (s : α) (st : PlayerState α) :
    PlayerState α :=
  if playable s then
    { st with
        queue := { st.queue with current_song := some s },
        now_playing := some s }
  else
    next_song_chain playable { st with fail_msgs := st.fail_msgs + 1 }

/-- State for the race between MusicControls.skip_button (lines 505-529)
and the end-of-track callback MusicPlayer.after_song (lines 784-805) at
one track boundary.  pending_completion records that the callback for the
finishing track has not been delivered yet; advances counts applications
of the queue advance (MusicQueue.next_song or the skip path equivalent);
discarded records that after_song returned early because of the
manual_skip flag. -/
structure RaceState where
  queue : MusicQueue Nat
  manual_skip : Bool
  pending_completion : Bool
  advances : Nat
  discarded : Bool
deriving DecidableEq, Repr

/-- One queue advance as performed by MusicPlayer.next_song (825-833) or
by the skip button (520-527, which plays the popped track): pop the head
into current_song if the pending list is non-empty, otherwise drop the
playing flag.  Tracks are assumed playable here; unplayable chains are
the subject of next_song_chain. -/
def queue_advance (st : RaceState) : RaceState :=
  if st.queue.songs.isEmpty then
    { st with queue := { st.queue with playing := false } }
  else
    { st with
        queue := (MusicQueue.next_song st.queue).1,
        advances := st.advances + 1 }

/-- Delivery of the end-of-track callback, MusicPlayer.after_song with
error=None (lines 784-805): if manual_skip is set the callback returns
immediately, otherwise it schedules MusicPlayer.next_song.  Delivering an
already-consumed completion is a no-op. -/
def after_song_deliver (st : RaceState) : RaceState :=
  if st.pending_completion then
    if st.manual_skip then
      { st with pending_completion := false, discarded := true }
    else
      queue_advance { st with pending_completion := false }
  else st

/-- The atomic sections of skip_button between its suspension points:
lines 510-514 set manual_skip and stop the sink; lines 520-527 pop the
next track and start it (their internal awaits keep the flag set
throughout); line 529 resets manual_skip after play_song returns. -/
inductive SkipAtom
  | set_flag_stop
  | pop_and_play
  | reset_flag
deriving DecidableEq, Repr

def skip_atom : SkipAtom → RaceState → RaceState
  | .set_flag_stop, st => { st with manual_skip := true }
  | .pop_and_play, st => queue_advance st
  | .reset_flag, st => { st with manual_skip := false }

/-- One track boundary under a concurrent (skip, natural completion)
pair: the three skip atoms run in order, and the completion callback is
delivered at one of the four possible positions relative to them.
Position 0 is delivery while skip awaits its interaction deferral (line
507), before the flag is set; positions 1 and 2 fall inside the flagged
window (during the 0.1 s sleep of line 517, or during the awaits of
play_song before line 529); any later position is delivery after the flag
has been reset. -/
def runRace (pos : Nat) (st : RaceState) : RaceState :=
  match pos with
  | 0 => skip_atom .reset_flag (skip_atom .pop_and_play
      (skip_atom .set_flag_stop (after_song_deliver st)))
  | 1 => skip_atom .reset_flag (skip_atom .pop_and_play
      (after_song_deliver (skip_atom .set_flag_stop st)))
  | 2 => skip_atom .reset_flag (after_song_deliver
      (skip_atom .pop_and_play (skip_atom .set_flag_stop st)))
  | _ => after_song_deliver (skip_atom .reset_flag
      (skip_atom .pop_and_play (skip_atom .set_flag_stop st)))

/-- Steady state while a track is finishing: its completion is pending,
the flag is down, and no advance has been counted at this boundary. -/
def raceInit (songs : List Nat) (cur : Option Nat) : RaceState :=
  { queue := { songs := songs, current_song := cur, playing := true },
    manual_skip := false, pending_completion := true,
    advances := 0, discarded := false }

/-- A three-track session about to advance, all tracks unplayable. -/
def chainInit : PlayerState String :=
  { queue := { songs := ["A", "B", "C"], current_song := none, playing := true },
    fail_msgs := 0, finished_msgs := 0, now_playing := none }

/-- A queues dict holding one active guild session (guild 1). -/
def voiceQs0 : Queues :=
  fun g =>
    if g = 1 then
      some { songs := [10, 11], current_song := some 9, playing := true }
    else none

/- ------------------------------------------------------------------ -/
/- Theorems.                                                           -/
/- ------------------------------------------------------------------ -/

theorem pyLower_append (s t : String) :
    pyLower (s ++ t) = pyLower s ++ pyLower t := by
  simp [pyLower, String.ext_iff]

theorem next_song_snd_eq_none_iff (q : MusicQueue α) :
    (MusicQueue.next_song q).2 = none ↔ q.songs = [] := by
  cases h : q.songs <;> simp [MusicQueue.next_song, h]

/-- C2 counterexample: on a queue with empty pending list and an occupied
current slot, MusicQueue.next_song returns None but does not clear the
current slot, contradicting the claim that it clears it. -/
theorem C2_next_song_empty_counterexample :
    (MusicQueue.next_song
        ({ songs := [], current_song := some 7, playing := true } :
          MusicQueue Nat)).2 = none ∧
    (MusicQueue.next_song
        ({ songs := [], current_song := some 7, playing := true } :
          MusicQueue Nat)).1.current_song = some 7 ∧
    some 7 ≠ (none : Option Nat) :=
  ⟨rfl, rfl, by decide⟩

/-- C2 (amended): on an empty pending list MusicQueue.next_song returns
None and leaves the whole queue, including the current slot, unchanged;
on a non-empty pending list it pops the head into the current slot and
returns that track. -/
theorem C2_next_song_amended (q : MusicQueue α) :
    (q.songs = [] → MusicQueue.next_song q = (q, none)) ∧
    (∀ h t, q.songs = h :: t →
      MusicQueue.next_song q =
        ({ q with songs := t, current_song := some h }, some h)) := by
  constructor
  · intro hq
    simp [MusicQueue.next_song, hq]
  · intro h t hq
    simp [MusicQueue.next_song, hq]

/-- C2 witness: the amended statement applied to the concrete queues
with pending list [5] and with empty pending list. -/
theorem C2_next_song_amended_witness :
    MusicQueue.next_song
        ({ songs := [5], current_song := some 9, playing := true } :
          MusicQueue Nat) =
      ({ songs := [], current_song := some 5, playing := true }, some 5) ∧
    MusicQueue.next_song
        ({ songs := [], current_song := some 9, playing := false } :
          MusicQueue Nat) =
      ({ songs := [], current_song := some 9, playing := false }, none) :=
  ⟨(C2_next_song_amended _).2 5 [] rfl, (C2_next_song_amended _).1 rfl⟩

/-- C3 counterexample: the stop button on a session with a playing track
clears the pending list and the playing flag but leaves the current slot
occupied, contradicting the claim that stop clears both. -/
theorem C3_stop_button_counterexample :
    stop_button_effect
        ({ songs := [1, 2], current_song := some 7, playing := true } :
          MusicQueue Nat) =
      { songs := [], current_song := some 7, playing := false } ∧
    (({ songs := [], current_song := some 7, playing := false } :
        MusicQueue Nat)).current_song ≠ none :=
  ⟨rfl, by decide⟩

/-- C3 (amended): from every queue state, the /stop slash command clears
both the pending list and the current slot and drops the playing flag
(via MusicQueue.clear); the stop button clears only the pending list and
the playing flag and leaves the current slot exactly as it was. -/
theorem C3_stop_amended (q : MusicQueue α) :
    stop_cmd_effect q =
      { songs := [], current_song := none, playing := false } ∧
    (stop_button_effect q).songs = [] ∧
    (stop_button_effect q).playing = false ∧
    (stop_button_effect q).current_song = q.current_song :=
  ⟨rfl, rfl, rfl, rfl⟩

/-- C4 counterexample: /pause while already paused and /resume while
already playing leave the state unchanged but reply with an error
message, not a no-effect success, contradicting the idempotent-success
claim. -/
theorem C4_pause_resume_counterexample :
    pause_cmd true true .vpaused =
      (.vpaused, .failure "Nothing is currently playing!") ∧
    (pause_cmd true true .vpaused).2.isSuccess = false ∧
    resume_cmd true true .vplaying =
      (.vplaying, .failure "Nothing is currently paused!") ∧
    (resume_cmd true true .vplaying).2.isSuccess = false :=
  ⟨rfl, rfl, rfl, rfl⟩

/-- C4 (amended): /pause in any state that is not playing (in particular
already paused) and /resume in any state that is not paused (in
particular already playing) leave the playback state unchanged but are
reported to the caller as errors, not successes; only Playing--pause and
Paused--resume succeed. -/
theorem C4_pause_resume_amended (vc : VCState) :
    (vc_is_playing vc = false →
      pause_cmd true true vc =
        (vc, .failure "Nothing is currently playing!")) ∧
    (vc_is_paused vc = false →
      resume_cmd true true vc =
        (vc, .failure "Nothing is currently paused!")) ∧
    pause_cmd true true .vplaying = (.vpaused, .success "Music paused!") ∧
    resume_cmd true true .vpaused = (.vplaying, .success "Music resumed!") := by
  refine ⟨fun h => ?_, fun h => ?_, rfl, rfl⟩
  · simp [pause_cmd, h]
  · simp [resume_cmd, h]

/-- C4 witness: the amended statement applied to the already-paused and
already-playing states. -/
theorem C4_pause_resume_amended_witness :
    pause_cmd true true .vpaused =
      (.vpaused, .failure "Nothing is currently playing!") ∧
    resume_cmd true true .vplaying =
      (.vplaying, .failure "Nothing is currently paused!") :=
  ⟨(C4_pause_resume_amended .vpaused).1 rfl,
   (C4_pause_resume_amended .vplaying).2.1 rfl⟩

/-- C6: evaluation of on_voice_state_update at the two decisive events.
When the bot itself is disconnected (before channel 5, after None) the
guild 1 queue survives untouched, and when an unrelated non-bot member
leaves a voice channel the guild 1 queue is discarded - the exact
opposite of the claim and of the code comment above the branch. -/
theorem C6_voice_update_eval :
    on_voice_state_update
        { memberIsBot := true, beforeChannel := some 5,
          afterChannel := none, guildId := 1 } voiceQs0 1 =
      some { songs := [10, 11], current_song := some 9, playing := true } ∧
    on_voice_state_update
        { memberIsBot := false, beforeChannel := some 5,
          afterChannel := none, guildId := 1 } voiceQs0 1 =
      some { songs := [], current_song := none, playing := false } :=
  ⟨rfl, rfl⟩

/-- C5: evaluation of the advance chain on a three-track queue whose
tracks are all unplayable.  The chain terminates (the definition is
total, each step consuming one queued track), drops the playing flag,
and sends three per-track failure notices but zero queue-finished
notices: the queue-exhausted report of line 831 is never emitted, because
its branch needs queue.next_song() to return None under a non-empty
pending list, which next_song_snd_eq_none_iff rules out. -/
theorem C5_all_unplayable_eval :
    next_song_chain (fun _ => false) chainInit =
      { queue := { songs := [], current_song := some "C", playing := false },
        fail_msgs := 3, finished_msgs := 0, now_playing := none } := by
  simp [next_song_chain, MusicQueue.next_song, chainInit]

/-- C7 counterexample: two consecutive play commands for the same guild
store and use MusicPlayer objects with distinct identities (the second
block of the play command constructs a fresh player unconditionally), so
a second live session object is constructed for one guild. -/
theorem C7_play_new_player_counterexample :
    (play_setup_player 1
        ({ find := fun _ => none, next_obj := 0 } : PlayerReg)).1 = 1 ∧
    (play_setup_player 1
        (play_setup_player 1
          ({ find := fun _ => none, next_obj := 0 } : PlayerReg)).2).1 = 2 ∧
    (1 : Nat) ≠ 2 :=
  ⟨rfl, rfl, by decide⟩

/-- C7 (amended): the queue registry behaves as claimed - get_queue
returns the identical object on a repeated call for the same guild
without touching the registry, creates an empty queue when the guild is
absent, and calls for a different guild leave the entry alone - but every
play invocation constructs and stores a fresh MusicPlayer, distinct from
the one already registered for the guild. -/
theorem C7_registry_amended (gid g2 : Nat) (st : QueueReg)
    (preg : PlayerReg) (p : Nat) :
    (get_queue gid (get_queue gid st).2).1.1 = (get_queue gid st).1.1 ∧
    (get_queue gid (get_queue gid st).2).2 = (get_queue gid st).2 ∧
    (st.find gid = none → (get_queue gid st).1.2 = emptyMusicQueue) ∧
    (g2 ≠ gid → (get_queue g2 st).2.find gid = st.find gid) ∧
    (preg.find gid = some p → p < preg.next_obj →
      (play_setup_player gid preg).1 ≠ p ∧
      (play_setup_player gid preg).2.find gid =
        some (play_setup_player gid preg).1) := by
  refine ⟨?_, ?_, ?_, ?_, ?_⟩
  · cases h : st.find gid <;> simp [get_queue, h]
  · cases h : st.find gid <;> simp [get_queue, h]
  · intro h
    simp [get_queue, h]
  · intro hne
    cases h2 : st.find g2 with
    | some e => simp [get_queue, h2]
    | none => simp [get_queue, h2, Ne.symm hne]
  · intro hp hlt
    constructor
    · simp only [play_setup_player, hp]
      exact fun he => absurd (he ▸ hlt) (lt_irrefl _)
    · simp [play_setup_player, hp]

/-- C7 witness: the amended statement applied to a fresh registry (guild
1 created empty, guild 2 lookup leaving guild 1 absent) and to a player
registry already holding player 0 for guild 1. -/
theorem C7_registry_amended_witness :
    (get_queue 1 ({ find := fun _ => none, next_obj := 0 } : QueueReg)).1.2 =
      emptyMusicQueue ∧
    (get_queue 2 ({ find := fun _ => none, next_obj := 0 } : QueueReg)).2.find 1 =
      none ∧
    (play_setup_player 1
        ({ find := fun g => if g = 1 then some 0 else none, next_obj := 1 } :
          PlayerReg)).1 ≠ 0 :=
  ⟨(C7_registry_amended 1 2 ({ find := fun _ => none, next_obj := 0 } : QueueReg)
      ({ find := fun _ => none, next_obj := 0 } : PlayerReg) 0).2.2.1 rfl,
   ((C7_registry_amended 1 2 ({ find := fun _ => none, next_obj := 0 } : QueueReg)
      ({ find := fun _ => none, next_obj := 0 } : PlayerReg) 0).2.2.2.1
      (by decide)).trans rfl,
   ((C7_registry_amended 1 2 ({ find := fun _ => none, next_obj := 0 } : QueueReg)
      ({ find := fun g => if g = 1 then some 0 else none, next_obj := 1 } :
        PlayerReg) 0).2.2.2.2 rfl (by decide)).1⟩

/-- C1 counterexample: with two tracks pending behind the finishing one,
a completion signal delivered after the skip has reset the manual_skip
flag (position 3) is not discarded and advances the queue a second time,
and a completion delivered while the skip awaits its interaction deferral
(position 0, before the flag is set) also yields two advances - the
claimed exactly-one-advance and stale-discard properties fail. -/
theorem C1_skip_race_counterexample :
    (runRace 3 (raceInit [1, 2] (some 0))).advances = 2 ∧
    (runRace 3 (raceInit [1, 2] (some 0))).discarded = false ∧
    (runRace 0 (raceInit [1, 2] (some 0))).advances = 2 :=
  ⟨rfl, rfl, rfl⟩

/-- C1 (amended): the manual_skip flag protects only part of the track
boundary: if the completion signal is delivered inside the flagged window
(after the skip sets the flag and stops the sink, and before it resets
the flag once the next track is started), the completion is discarded
with no state change and exactly one queue advance - the skip's own - is
applied; a completion delivered before the flag is set or after it is
reset performs a second advance. -/
theorem C1_skip_race_flag_window_amended (s : Nat) (rest : List Nat)
    (cur : Option Nat) (pos : Nat) (h : pos = 1 ∨ pos = 2) :
    (runRace pos (raceInit (s :: rest) cur)).advances = 1 ∧
    (runRace pos (raceInit (s :: rest) cur)).discarded = true ∧
    (runRace pos (raceInit (s :: rest) cur)).queue.songs = rest ∧
    (runRace pos (raceInit (s :: rest) cur)).queue.current_song = some s ∧
    (runRace pos (raceInit (s :: rest) cur)).manual_skip = false := by
  rcases h with h | h <;> subst h <;> exact ⟨rfl, rfl, rfl, rfl, rfl⟩

/-- C1 witness: the amended statement at delivery position 1 with queue
[1, 2] behind finishing track 0. -/
theorem C1_skip_race_flag_window_amended_witness :
    (runRace 1 (raceInit [1, 2] (some 0))).advances = 1 ∧
    (runRace 1 (raceInit [1, 2] (some 0))).discarded = true :=
  ⟨(C1_skip_race_flag_window_amended 1 [2] (some 0) 1 (Or.inl rfl)).1,
   (C1_skip_race_flag_window_amended 1 [2] (some 0) 1 (Or.inl rfl)).2.1⟩

/-- C9: generate_song_id is a pure function of the lowercase-normalized
(title, artist, url) triple: whenever the components agree up to
lowercasing - in particular whenever they are equal, or differ only in
letter case - the identity hashes agree, for any digest function. -/
theorem C9_song_id_normalized (md5 : String → String)
    (t1 a1 u1 t2 a2 u2 : String)
    (ht : pyLower t1 = pyLower t2) (ha : pyLower a1 = pyLower a2)
    (hu : pyLower u1 = pyLower u2) :
    generate_song_id md5 t1 a1 u1 = generate_song_id md5 t2 a2 u2 := by
  unfold generate_song_id
  simp only [pyLower_append, ht, ha, hu]

/-- C9 witness: the same identity hash for a title, artist and url
differing only in letter case. -/
theorem C9_song_id_normalized_witness :
    generate_song_id (fun s => s) "Hello Track" "The Artist" "HTTP://U" =
      generate_song_id (fun s => s) "hELLO tRACK" "the artist" "http://u" :=
  C9_song_id_normalized (fun s => s) _ _ _ _ _ _
    (by decide) (by decide) (by decide)

theorem run_save_tasks_failed (md5 : String → String) (now : Nat)
    (tasks : List SongData) (coll : SongColl) :
    run_save_tasks md5 .failed now tasks coll = coll := by
  induction tasks generalizing coll with
  | nil => rfl
  | cons t ts ih =>
      simp only [run_save_tasks, List.foldl_cons] at *
      exact ih coll

/-- C10: a failed cache write is invisible to the play path: save_song
catches the write error and returns None with the collection unchanged
(it is a total function, so nothing escapes); the result list returned by
the search is the same whether the detached save tasks later succeed or
fail; and running the detached tasks under failure leaves the collection
untouched. -/
theorem C10_cache_write_isolated (md5 : String → String) (sd : SongData)
    (now : Nat) (coll : SongColl) (oc : DbOutcome) (query : String)
    (entries : List RawEntry) :
    save_song md5 .failed sd now coll = (none, coll) ∧
    (search_and_flush md5 oc query entries now coll).1 =
      (search_and_flush md5 .ok query entries now coll).1 ∧
    (search_and_flush md5 .failed query entries now coll).2 = coll :=
  ⟨rfl, rfl, run_save_tasks_failed md5 now _ coll⟩

/-- C8 counterexample: merging a track whose originating query is "Q1"
stores the lowercased query "q1", not "Q1", so the search-query set is
not the set containing the source query. -/
theorem C8_lowercase_query_counterexample :
    docQueries ((save_song_apply (fun s => s)
        { title := "TrackA", artist := "ArtistA", duration := 100,
          url := "http://u", thumbnail := "", spotify_id := "",
          search_query := "Q1", from_cache := false } 0 (fun _ => none)).2
        (generate_song_id (fun s => s) "TrackA" "ArtistA" "http://u")) =
      some ["q1"] ∧
    (some ["q1"] : Option (List String)) ≠ some ["Q1"] := by
  exact ⟨by decide, by decide⟩

/-- C8 (amended): save_song on an absent identity hash creates a record
with play count 1 and search-query set holding the lowercased source
query; a second save of the same (title, artist, url) track increments
the play count to 2, updates last_played to the new clock, and adds the
second lowercased query, yielding the set of both lowercased queries. -/
theorem C8_save_song_merge_amended (md5 : String → String)
    (sd1 sd2 : SongData) (n1 n2 : Nat) (coll : SongColl)
    (ht : sd2.title = sd1.title) (ha : sd2.artist = sd1.artist)
    (hu : sd2.url = sd1.url)
    (habs : coll (generate_song_id md5 sd1.title sd1.artist sd1.url) = none)
    (hq : pyLower sd1.search_query ≠ pyLower sd2.search_query) :
    docPlayCount ((save_song_apply md5 sd1 n1 coll).2
        (generate_song_id md5 sd1.title sd1.artist sd1.url)) = some 1 ∧
    docQueries ((save_song_apply md5 sd1 n1 coll).2
        (generate_song_id md5 sd1.title sd1.artist sd1.url)) =
      some [pyLower sd1.search_query] ∧
    docPlayCount ((save_song_apply md5 sd2 n2
          (save_song_apply md5 sd1 n1 coll).2).2
        (generate_song_id md5 sd1.title sd1.artist sd1.url)) = some 2 ∧
    docQueries ((save_song_apply md5 sd2 n2
          (save_song_apply md5 sd1 n1 coll).2).2
        (generate_song_id md5 sd1.title sd1.artist sd1.url)) =
      some [pyLower sd1.search_query, pyLower sd2.search_query] ∧
    docLastPlayed ((save_song_apply md5 sd2 n2
          (save_song_apply md5 sd1 n1 coll).2).2
        (generate_song_id md5 sd1.title sd1.artist sd1.url)) = some n2 := by
  have hkey : generate_song_id md5 sd2.title sd2.artist sd2.url =
      generate_song_id md5 sd1.title sd1.artist sd1.url := by
    rw [ht, ha, hu]
  simp only [save_song_apply, habs, hkey, if_pos, addToSetEach,
    List.foldl_cons, List.foldl_nil, List.contains_nil, Bool.false_eq_true,
    if_false, List.nil_append, docPlayCount, docQueries, docLastPlayed,
    Option.map_some]
  simp [List.contains_cons, hq, Ne.symm hq]

/-- C8 witness: the amended statement for concrete track TrackA merged
first under query "Q1" at clock 0 and then under query "q2" at clock 5,
ending with play count 2 and query set [q1, q2]. -/
theorem C8_save_song_merge_amended_witness :
    docPlayCount ((save_song_apply (fun s => s)
        { title := "TrackA", artist := "ArtistA", duration := 100,
          url := "http://u", thumbnail := "", spotify_id := "",
          search_query := "q2", from_cache := false } 5
        (save_song_apply (fun s => s)
          { title := "TrackA", artist := "ArtistA", duration := 100,
            url := "http://u", thumbnail := "", spotify_id := "",
            search_query := "Q1", from_cache := false } 0 (fun _ => none)).2).2
        (generate_song_id (fun s => s) "TrackA" "ArtistA" "http://u")) =
      some 2 ∧
    docQueries ((save_song_apply (fun s => s)
        { title := "TrackA", artist := "ArtistA", duration := 100,
          url := "http://u", thumbnail := "", spotify_id := "",
          search_query := "q2", from_cache := false } 5
        (save_song_apply (fun s => s)
          { title := "TrackA", artist := "ArtistA", duration := 100,
            url := "http://u", thumbnail := "", spotify_id := "",
            search_query := "Q1", from_cache := false } 0 (fun _ => none)).2).2
        (generate_song_id (fun s => s) "TrackA" "ArtistA" "http://u")) =
      some ["q1", "q2"] :=
  ⟨(C8_save_song_merge_amended (fun s => s)
      { title := "TrackA", artist := "ArtistA", duration := 100,
        url := "http://u", thumbnail := "", spotify_id := "",
        search_query := "Q1", from_cache := false }
      { title := "TrackA", artist := "ArtistA", duration := 100,
        url := "http://u", thumbnail := "", spotify_id := "",
        search_query := "q2", from_cache := false } 0 5 (fun _ => none)
      rfl rfl rfl rfl (by decide)).2.2.1,
   ((C8_save_song_merge_amended (fun s => s)
      { title := "TrackA", artist := "ArtistA", duration := 100,
        url := "http://u", thumbnail := "", spotify_id := "",
        search_query := "Q1", from_cache := false }
      { title := "TrackA", artist := "ArtistA", duration := 100,
        url := "http://u", thumbnail := "", spotify_id := "",
        search_query := "q2", from_cache := false } 0 5 (fun _ => none)
      rfl rfl rfl rfl (by decide)).2.2.2.1).trans (by decide)⟩
